import Mathlib

/-!
Shallow embedding of the Google-Calendar assistant core (files
`mcp_server.py`, `mcp_client.py`, `langgraph_flow.py`,
`utils_serialization.py`) and proofs of the spec claims about it.

Python values are modelled by `PyVal`; Python exceptions by `PyErr` and
`Except PyErr`; machine integers by `Int` (no overflow is relevant here);
external library calls (`json.loads`, `dateutil.parser.isoparse`, the
Gemini API, the MCP transport) are parameters of the embedded functions,
so every theorem quantifies over their behaviour.
-/

namespace CalendarAssistant

/-- Python exception classes that the embedded code can raise.
`typeError` is what `dateutil.parser.isoparse(None)` raises,
`valueError` what it raises on an unparseable string, `attributeError`
what `x.get(...)` raises when `x` is not a dict.  `malformedEventError`
appears in the spec's error taxonomy; no code in the repository defines
or raises it, and no embedded function below produces it. -/
inductive PyErr where
  | typeError
  | valueError
  | attributeError
  | malformedEventError
  | exc (msg : String)
  deriving DecidableEq, Repr

/-- Plain JSON values: exactly the shapes `json.loads` can return.
Used for the protobuf round-trip branch of `serialize_tool_result`,
whose output in Python is always a plain JSON value. -/
inductive JsonVal where
  | jNull
  | jBool (b : Bool)
  | jInt (n : Int)
  | jStr (s : String)
  | jList (xs : List JsonVal)
  | jDict (kvs : List (String × JsonVal))

/-- Python runtime values as seen by this code base.  Numeric values are
modelled by `Int` (the code never does float arithmetic on them).  The
`pyObj` constructor models an otherwise-unknown object by the attributes the code
probes with `hasattr`, in probe order: a `to_dict()` result, a
`__dict__` attribute map, a `text` attribute, a `_pb` attribute (whose
JSON round-trip result is stored as a plain `JsonVal`), and the
`str(...)` representation. -/
inductive PyVal where
  | pyNone
  | pyBool (b : Bool)
  | pyInt (n : Int)
  | pyStr (s : String)
  | pyList (xs : List PyVal)
  | pyDict (kvs : List (String × PyVal))
  | pyObj (toDict : Option (List (String × PyVal)))
          (dunderDict : Option (List (String × PyVal)))
          (text : Option String)
          (pb : Option JsonVal)
          (reprStr : String)

/-- Embed a plain JSON value into `PyVal`. -/
def JsonVal.toPyVal : JsonVal → PyVal
  | .jNull => .pyNone
  | .jBool b => .pyBool b
  | .jInt n => .pyInt n
  | .jStr s => .pyStr s
  | .jList xs => .pyList (xs.attach.map fun x => x.1.toPyVal)
  | .jDict kvs => .pyDict (kvs.attach.map fun kv => (kv.1.1, kv.1.2.toPyVal))
decreasing_by
  · have h := List.sizeOf_lt_of_mem x.2
    simp only [JsonVal.jList.sizeOf_spec]
    omega
  · have h := List.sizeOf_lt_of_mem kv.2
    have h2 : sizeOf kv.1.2 < sizeOf kv.1 := by
      obtain ⟨⟨a, b⟩, hm⟩ := kv
      simp
    simp only [JsonVal.jDict.sizeOf_spec]
    omega

/-- Python truthiness (`bool(v)`) for the modelled values. -/
def truthy : PyVal → Bool
  | .pyNone => false
  | .pyBool b => b
  | .pyInt n => n != 0
  | .pyStr s => s != ""
  | .pyList xs => !xs.isEmpty
  | .pyDict kvs => !kvs.isEmpty
  | .pyObj _ _ _ _ _ => true

/-- Python `d.get(k, default)` on a dict, modelled on the association
list (keys are unique in a Python dict, so first match is the match). -/
def dictGetD (kvs : List (String × PyVal)) (k : String) (dflt : PyVal) : PyVal :=
  match kvs.lookup k with
  | some v => v
  | none => dflt

/-- Python `v.get(k)` as a method call: raises `AttributeError` when `v` is not
a dict (ints, lists, strings have no `.get`). -/
def pyGetMethod (v : PyVal) (k : String) : Except PyErr PyVal :=
  match v with
  | .pyDict kvs => .ok (dictGetD kvs k .pyNone)
  | _ => .error .attributeError

/-- Function `serialize_tool_result` of `utils_serialization.py` (same body is duplicated
in `mcp_client.py`): convert a tool result into JSON-serializable form.
Branch order follows the source: `None`; already-simple values (dict,
str, int, bool); lists element-wise; `to_dict()`; `__dict__`
(values serialized recursively); `.text`; `_pb` (JSON round-trip);
`str(...)` fallback. -/
def serialize_tool_result : PyVal → PyVal
  | .pyNone => .pyNone
  | .pyBool b => .pyBool b
  | .pyInt n => .pyInt n
  | .pyStr s => .pyStr s
  | .pyDict kvs => .pyDict kvs
  | .pyList xs => .pyList (xs.attach.map fun x => serialize_tool_result x.1)
  | .pyObj toDict dunderDict text pb reprStr =>
    match toDict with
    | some d => .pyDict d
    | none =>
      match dunderDict with
      | some attrs =>
        .pyDict (attrs.attach.map fun kv => (kv.1.1, serialize_tool_result kv.1.2))
      | none =>
        match text with
        | some t => .pyStr t
        | none =>
          match pb with
          | some j => j.toPyVal
          | none => .pyStr reprStr
decreasing_by
  · have h := List.sizeOf_lt_of_mem x.2
    simp only [PyVal.pyList.sizeOf_spec]
    omega
  · have h := List.sizeOf_lt_of_mem kv.2
    have h2 : sizeOf kv.1.2 < sizeOf kv.1 := by
      obtain ⟨⟨a, b⟩, hm⟩ := kv
      simp
    simp only [PyVal.pyObj.sizeOf_spec]
    have h3 : sizeOf (some attrs) = 1 + sizeOf attrs := by simp
    omega

/-! ## `mcp_server.py`: interval conflict checker and `update_event` -/

/-- The `start` / `end` field of a remote calendar event: an optional
timed instant (`dateTime`) and an optional all-day date (`date`), each
absent when the key is missing (or its value is `None`). -/
structure EvTime where
  dateTime : Option String
  date : Option String

/-- A remote calendar event as probed by the conflict checker: its
server-assigned `id` and its `start` / `end` fields.  (`end` is a Lean
keyword, hence `end_`.) -/
structure Event where
  id : String
  start : EvTime
  end_ : EvTime

/-- The JSON response of the events-list endpoint, as consumed by
`check_conflict` via `events.get("items", [])` (a response without the
key behaves as the empty list). -/
structure EventsResponse where
  items : List Event

/-- The library call `dateutil.parser.isoparse`, modelled abstractly: `iso` maps the
strings the library can parse to the absolute instant they denote
(instants are modelled as `Int`).  `isoparse(None)` raises `TypeError`;
an unparseable string raises `ValueError`. -/
def isoparse (iso : String → Option Int) : Option String → Except PyErr Int
  | none => .error .typeError
  | some s =>
    match iso s with
    | some t => .ok t
    | none => .error .valueError

/-- The expression `ev["start"].get("dateTime", ev["start"].get("date"))`: the timed
field when present, else the date-only field (which may itself be
absent, giving `None`). -/
def effField (f : EvTime) : Option String :=
  match f.dateTime with
  | some s => some s
  | none => f.date

/-- The loop body of `check_conflict`: walk the items in order, parse
each event's effective start/end, and return the first event whose
window strictly overlaps `[s, e)`. -/
def checkLoop (iso : String → Option Int) (s e : Int) :
    List Event → Except PyErr (Bool × Option Event)
  | [] => .ok (false, none)
  | ev :: rest => do
    let ev_s ← isoparse iso (effField ev.start)
    let ev_e ← isoparse iso (effField ev.end_)
    if !(e ≤ ev_s || s ≥ ev_e) then .ok (true, some ev)
    else checkLoop iso s e rest

/-- Function `check_conflict(start_iso, end_iso, events)` of `mcp_server.py`. -/
def check_conflict (iso : String → Option Int) (start_iso end_iso : String)
    (events : EventsResponse) : Except PyErr (Bool × Option Event) := do
  let s ← isoparse iso (some start_iso)
  let e ← isoparse iso (some end_iso)
  checkLoop iso s e events.items

/-- Whether an event's (parsed) window strictly overlaps `[s, e)`, with
the exact boolean test of the source (`not (e <= ev_s or s >= ev_e)`);
an event that fails to parse is not an overlap witness. -/
def overlapsB (iso : String → Option Int) (s e : Int) (ev : Event) : Bool :=
  match isoparse iso (effField ev.start), isoparse iso (effField ev.end_) with
  | .ok ev_s, .ok ev_e => !(e ≤ ev_s || s ≥ ev_e)
  | _, _ => false

/-- Both effective fields of the event parse successfully. -/
def eventParsesB (iso : String → Option Int) (ev : Event) : Bool :=
  (isoparse iso (effField ev.start)).isOk && (isoparse iso (effField ev.end_)).isOk

/-- Python truthiness of an optional-string argument (`if start_iso:`):
false for `None` and for the empty string. -/
def truthyStr : Option String → Bool
  | none => false
  | some s => s != ""

/-- Python `d[k] = v` on a dict modelled as an association list:
overwrite the existing binding, else append. -/
def dictSet (kvs : List (String × PyVal)) (k : String) (v : PyVal) :
    List (String × PyVal) :=
  if kvs.any (fun kv => kv.1 == k) then
    kvs.map (fun kv => if kv.1 == k then (k, v) else kv)
  else kvs ++ [(k, v)]

/-- A remote HTTP interaction performed by `update_event`, recorded for
the trace of calls. -/
inductive RemoteCall where
  | getEvent (event_id : String)
  | listEvents (time_min time_max : Option String)
  | putEvent (event_id : String) (payload : PyVal)

/-- The environment of one `update_event` invocation: the instant
semantics of `isoparse`, the fetched current event, the probe window's
event list, and the JSON body of the PUT response. -/
structure UpdateEnv where
  iso : String → Option Int
  current_event : List (String × PyVal)
  probe : EventsResponse
  put_response : PyVal

/-- The value returned by `update_event`: the conflict dict
`{"status": "conflict", "conflicting_event": ev}` or the success dict
`{"status": "updated", "event": resp.json()}` (for the latter we also
record the payload that was PUT). -/
inductive UpdateResult where
  | conflictRes (conflicting_event : Event)
  | updatedRes (payload : List (String × PyVal)) (response : PyVal)

/-- The PUT payload of `update_event`: the fetched event with the
truthy optional fields applied (note the source's quirk that `start` /
`end` are rewritten only when `timezone` is also truthy). -/
def updatePayload (env : UpdateEnv)
    (start_iso end_iso timezone summary description : Option String) :
    List (String × PyVal) :=
  let ce := env.current_event
  let ce := if truthyStr summary then
      dictSet ce "summary" (.pyStr (summary.getD "")) else ce
  let ce := if truthyStr description then
      dictSet ce "description" (.pyStr (description.getD "")) else ce
  let ce := if truthyStr start_iso && truthyStr timezone then
      dictSet ce "start" (.pyDict [("dateTime", .pyStr (start_iso.getD "")),
                                   ("timeZone", .pyStr (timezone.getD ""))]) else ce
  let ce := if truthyStr end_iso && truthyStr timezone then
      dictSet ce "end" (.pyDict [("dateTime", .pyStr (end_iso.getD "")),
                                 ("timeZone", .pyStr (timezone.getD ""))]) else ce
  ce

/-- The payload-building tail of `update_event`: apply the truthy
optional fields to the fetched event and PUT it. -/
def updateWrite (env : UpdateEnv) (event_id : String)
    (start_iso end_iso timezone summary description : Option String)
    (calls : List RemoteCall) : UpdateResult × List RemoteCall :=
  let ce := updatePayload env start_iso end_iso timezone summary description
  (.updatedRes ce env.put_response, calls ++ [.putEvent event_id (.pyDict ce)])

/-- Function `update_event` of `mcp_server.py`: fetch the current event; when both a new
start and a new end are truthy, probe the new window and return the
conflict dict unless the first overlapping event is the event being
updated; then apply the updates and PUT.  Alongside the result we return
the trace of remote calls made. -/
def update_event (env : UpdateEnv) (event_id : String)
    (start_iso end_iso timezone summary description : Option String) :
    Except PyErr (UpdateResult × List RemoteCall) := do
  let calls : List RemoteCall := [.getEvent event_id]
  if truthyStr start_iso && truthyStr end_iso then
    let calls := calls ++ [.listEvents start_iso end_iso]
    let (conflict, ev) ←
      check_conflict env.iso (start_iso.getD "") (end_iso.getD "") env.probe
    match conflict, ev with
    | true, some e =>
      if e.id != event_id then .ok (.conflictRes e, calls)
      else .ok (updateWrite env event_id start_iso end_iso timezone summary description calls)
    | _, _ => .ok (updateWrite env event_id start_iso end_iso timezone summary description calls)
  else
    .ok (updateWrite env event_id start_iso end_iso timezone summary description calls)

/-! ## `langgraph_flow.py`: defensive JSON parsing and pipeline nodes -/

/-- The character `{` (written via its code point to keep string/char
literals free of braces). -/
def lbrace : Char := Char.ofNat 123

/-- The character `}`. -/
def rbrace : Char := Char.ofNat 125

/-- Python `s.find(c)`: index of the first occurrence, `-1` if absent. -/
def strFind (s : String) (c : Char) : Int :=
  match s.toList.findIdx? (fun x => x == c) with
  | some i => (i : Int)
  | none => -1

/-- Python `s.rfind(c)`: index of the last occurrence, `-1` if absent. -/
def strRFind (s : String) (c : Char) : Int :=
  match s.toList.reverse.findIdx? (fun x => x == c) with
  | some i => (s.length : Int) - 1 - (i : Int)
  | none => -1

/-- Python slicing `s[a : b]` for the in-range, non-negative indices
used by `_safe_json_loads`. -/
def pySlice (s : String) (a b : Int) : String :=
  String.mk ((s.toList.drop a.toNat).take (b - a).toNat)

/-- The substring attempt of `_safe_json_loads`: when the first brace
index and the last closing-brace index exist with `end > start`, the
substring `s[start : end + 1]`, else nothing. -/
def sliceAttempt (s : String) : Option String :=
  let start := strFind s lbrace
  let e := strRFind s rbrace
  if start ≠ -1 ∧ e ≠ -1 ∧ start < e then some (pySlice s start (e + 1)) else none

/-- Function `_safe_json_loads` of `langgraph_flow.py`, parameterized by the behaviour of
the external `json.loads` (which for each input either returns a value
or raises).  Try the direct parse; on failure try the first-brace to
last-brace substring; on failure of both return the empty dict.  (The
source's leading `isinstance(s, str)` guard is vacuous here since the
input is typed as a string.) -/
def _safe_json_loads (json_loads : String → Except PyErr PyVal) (s : String) :
    Except PyErr PyVal :=
  match json_loads s with
  | .ok v => .ok v
  | .error _ =>
    match sliceAttempt s with
    | some sub =>
      match json_loads sub with
      | .ok v => .ok v
      | .error _ => .ok (.pyDict [])
    | none => .ok (.pyDict [])

/-- The LangGraph state dict (`CalendarState`): `messages` plus the five
stage fields, each `None` (`pyNone`) until its stage writes it. -/
structure CalendarState where
  messages : List PyVal
  intent : PyVal
  data : PyVal
  validation : PyVal
  action_result : PyVal
  message : PyVal

/-- Python `v.get(k, dflt)` as a method call: raises `AttributeError` when `v`
is not a dict. -/
def pyGetMethodD (v : PyVal) (k : String) (dflt : PyVal) : Except PyErr PyVal :=
  match v with
  | .pyDict kvs => .ok (dictGetD kvs k dflt)
  | _ => .error .attributeError

/-- Function `intent_node` of `langgraph_flow.py`, parameterized by `json.loads` and by
the text the Gemini classifier returned for the latest user message (the
`ask_gemini` call is an external capability).  Writes
`state["intent"] = parsed.get("intent")`; the `.get` raises when the
parsed value is not a dict. -/
def intent_node (json_loads : String → Except PyErr PyVal)
    (gemini_response : String) (state : CalendarState) :
    Except PyErr CalendarState := do
  let parsed ← _safe_json_loads json_loads gemini_response
  let i ← pyGetMethod parsed "intent"
  .ok { state with intent := i }

/-- Function `action_node` of `langgraph_flow.py`, parameterized by the remote tool-call
function.  Returns the updated state, whether a Tool Invocation Client
session was opened, and the list of `(tool_name, tool_input)` calls
issued through it.  When `validation.get("valid", False)` is falsy the
node writes the error dict and returns without opening a session. -/
def action_node (callTool : PyVal → PyVal → PyVal) (state : CalendarState) :
    Except PyErr (CalendarState × Bool × List (PyVal × PyVal)) := do
  let validation := if truthy state.validation then state.validation else .pyDict []
  let validFlag ← pyGetMethodD validation "valid" (.pyBool false)
  if !truthy validFlag then
    let errs ← pyGetMethod validation "errors"
    .ok ({ state with
           action_result := .pyDict [("status", .pyStr "error"), ("details", errs)] },
         false, [])
  else
    let result := callTool state.intent state.data
    .ok ({ state with action_result := serialize_tool_result result },
         true, [(state.intent, state.data)])

/-! ## `langgraph_flow.build_graph`: the pipeline graph -/

/-- LangGraph's reserved entry node name. -/
def START : String := "__start__"

/-- LangGraph's reserved exit node name. -/
def END : String := "__end__"

/-- The graph under construction: named nodes, unconditional edges, and
the nodes given conditional routing (`add_conditional_edges` is never
called by `build_graph`, so the last list stays empty). -/
structure StateGraph where
  nodes : List String
  edges : List (String × String)
  conditional_edges : List String

/-- The builder call `workflow.add_node(name, fn)` (the attached function is modelled
separately as `intent_node`, `action_node`, ...). -/
def StateGraph.add_node (g : StateGraph) (name : String) : StateGraph :=
  { g with nodes := g.nodes ++ [name] }

/-- The builder call `workflow.add_edge(a, b)`. -/
def StateGraph.add_edge (g : StateGraph) (a b : String) : StateGraph :=
  { g with edges := g.edges ++ [(a, b)] }

/-- Function `build_graph` of `langgraph_flow.py`: the exact sequence of `add_node` and
`add_edge` calls of the source. -/
def build_graph : StateGraph :=
  let workflow : StateGraph := { nodes := [], edges := [], conditional_edges := [] }
  let workflow := workflow.add_node "intent"
  let workflow := workflow.add_node "data"
  let workflow := workflow.add_node "validation"
  let workflow := workflow.add_node "action"
  let workflow := workflow.add_node "feedback"
  let workflow := workflow.add_edge START "intent"
  let workflow := workflow.add_edge "intent" "data"
  let workflow := workflow.add_edge "data" "validation"
  let workflow := workflow.add_edge "validation" "action"
  let workflow := workflow.add_edge "action" "feedback"
  let workflow := workflow.add_edge "feedback" END
  workflow

/-- The successors of a node along unconditional edges. -/
def successors (g : StateGraph) (n : String) : List String :=
  (g.edges.filter (fun e => e.1 == n)).map (fun e => e.2)

/-- Follow unique successors from a node for `fuel` steps; stops early
at any fork or sink. -/
def pathFrom (g : StateGraph) : Nat → String → List String
  | 0, n => [n]
  | fuel + 1, n =>
    match successors g n with
    | [next] => n :: pathFrom g fuel next
    | _ => [n]

/-! ## `mcp_client.py`: `run_with_gemini` and the `/assistant/query` handler -/

/-- The first content part of the model's reply: either a function call
(`response.candidates[0].content.parts[0].function_call`) or plain
text. -/
inductive GeminiResponse where
  | functionCall (name : String) (args : List (String × PyVal))
  | textOnly (text : String)

/-- The external effects `run_with_gemini` performs, each fallible:
opening the MCP session, `client.list_tools()`, `chat.send_message`,
`client.call_tool`, and the follow-up `chat.send_message` carrying the
serialized tool result. -/
structure ClientEnv where
  connect : Except PyErr Unit
  list_tools : Except PyErr (List String)
  send_message : String → Except PyErr GeminiResponse
  call_tool : String → List (String × PyVal) → Except PyErr PyVal
  send_follow_up : String → PyVal → Except PyErr String

/-- Function `run_with_gemini` of `mcp_client.py`: open a session, list tools, ask the
model, execute a requested tool call and ask for the final answer, or
return the model's direct text.  There is no exception handler anywhere
in this function; every failure of an effect propagates.  (The
tool-spec sanitization and prompt text are pure data for the external
model and are elided.) -/
def run_with_gemini (env : ClientEnv) (user_query : String) : Except PyErr String := do
  env.connect
  let _tools ← env.list_tools
  let response ← env.send_message user_query
  match response with
  | .functionCall tool_name args => do
    let result ← env.call_tool tool_name args
    let tool_result := serialize_tool_result result
    let follow_up ← env.send_follow_up tool_name tool_result
    .ok follow_up
  | .textOnly t => .ok t

/-- Function `assistant_query` of `mcp_client.py`, the `/assistant/query` handler: await
`run_with_gemini` and wrap the answer as `{"response": final_answer}`.
The handler has no `try`/`except`, so a failure of `run_with_gemini`
propagates out of the handler. -/
def assistant_query (env : ClientEnv) (query : String) : Except PyErr PyVal := do
  let final_answer ← run_with_gemini env query
  .ok (.pyDict [("response", .pyStr final_answer)])

/-! ## Shared lemmas about the conflict checker -/

/-- When every item's fields parse, `checkLoop` returns the first
overlapping item (`List.find?`), and the returned flag is exactly its
presence. -/
theorem checkLoop_spec (iso : String → Option Int) (s e : Int) (items : List Event)
    (h : ∀ ev ∈ items, eventParsesB iso ev = true) :
    checkLoop iso s e items =
      .ok ((items.find? (overlapsB iso s e)).isSome, items.find? (overlapsB iso s e)) := by
  induction items with
  | nil => rfl
  | cons ev rest ih =>
    have hev := h ev (List.mem_cons_self ev rest)
    have hrest : ∀ x ∈ rest, eventParsesB iso x = true :=
      fun x hx => h x (List.mem_cons_of_mem ev hx)
    unfold eventParsesB at hev
    cases hs : isoparse iso (effField ev.start) with
    | error err => rw [hs] at hev; simp [Except.isOk, Except.toBool] at hev
    | ok ts =>
      cases he : isoparse iso (effField ev.end_) with
      | error err => rw [hs, he] at hev; simp [Except.isOk, Except.toBool] at hev
      | ok te =>
        have hov : overlapsB iso s e ev = !(e ≤ ts || s ≥ te) := by
          unfold overlapsB; rw [hs, he]
        by_cases hcase : ts < e ∧ s < te
        · have hb : overlapsB iso s e ev = true := by rw [hov]; simp; omega
          simp [checkLoop, hs, he, List.find?_cons, hb, hcase, bind, Except.bind]
        · have hb : overlapsB iso s e ev = false := by rw [hov]; simp; omega
          simp [checkLoop, hs, he, List.find?_cons, hb, hcase, ih hrest, bind, Except.bind]

/-- For an item whose fields parse, the overlap test is the strict
half-open comparison of the claims. -/
theorem overlapsB_iff (iso : String → Option Int) (s e : Int) (ev : Event)
    (h : eventParsesB iso ev = true) :
    overlapsB iso s e ev = true ↔
      ∃ ts te, isoparse iso (effField ev.start) = .ok ts ∧
               isoparse iso (effField ev.end_) = .ok te ∧ s < te ∧ ts < e := by
  unfold eventParsesB at h
  cases hs : isoparse iso (effField ev.start) with
  | error err => rw [hs] at h; simp [Except.isOk, Except.toBool] at h
  | ok ts =>
    cases he : isoparse iso (effField ev.end_) with
    | error err => rw [hs, he] at h; simp [Except.isOk, Except.toBool] at h
    | ok te =>
      unfold overlapsB
      rw [hs, he]
      constructor
      · intro hb
        refine ⟨ts, te, rfl, rfl, ?_, ?_⟩ <;> simp at hb <;> omega
      · rintro ⟨ts', te', hts, hte, h1, h2⟩
        cases hts
        cases hte
        simp
        omega

/-- When the window parses and every probed event parses,
`check_conflict` returns exactly the first overlapping item
(`List.find?` in sequence order) together with its presence flag. -/
theorem check_conflict_eq_find (iso : String → Option Int)
    (start_iso end_iso : String) (events : EventsResponse) (s e : Int)
    (hs : iso start_iso = some s) (he : iso end_iso = some e)
    (hp : ∀ ev ∈ events.items, eventParsesB iso ev = true) :
    check_conflict iso start_iso end_iso events =
      .ok ((events.items.find? (overlapsB iso s e)).isSome,
           events.items.find? (overlapsB iso s e)) := by
  have h1 : isoparse iso (some start_iso) = .ok s := by simp [isoparse, hs]
  have h2 : isoparse iso (some end_iso) = .ok e := by simp [isoparse, he]
  unfold check_conflict
  rw [h1, h2]
  simpa [bind, Except.bind] using checkLoop_spec iso s e events.items hp

/-! ## Claim theorems: conflict checker -/

/-- C1: `check_conflict` returns `conflict = true` iff some existing
event's parsed window `[ts, te)` strictly overlaps the candidate window
`[s, e)`, i.e. `s < te` and `ts < e`; touching boundaries are not
conflicts (half-open interval semantics). -/
theorem check_conflict_iff_strict_overlap (iso : String → Option Int)
    (start_iso end_iso : String) (events : EventsResponse) (s e : Int)
    (hs : iso start_iso = some s) (he : iso end_iso = some e)
    (hp : ∀ ev ∈ events.items, eventParsesB iso ev = true) :
    ∃ r, check_conflict iso start_iso end_iso events = .ok r ∧
      (r.1 = true ↔ ∃ ev ∈ events.items, ∃ ts te,
        isoparse iso (effField ev.start) = .ok ts ∧
        isoparse iso (effField ev.end_) = .ok te ∧ s < te ∧ ts < e) := by
  refine ⟨((events.items.find? (overlapsB iso s e)).isSome,
           events.items.find? (overlapsB iso s e)), ?_, ?_⟩
  · exact check_conflict_eq_find iso start_iso end_iso events s e hs he hp
  · rw [List.find?_isSome]
    constructor
    · rintro ⟨ev, hmem, hov⟩
      exact ⟨ev, hmem, (overlapsB_iff iso s e ev (hp ev hmem)).1 hov⟩
    · rintro ⟨ev, hmem, hw⟩
      exact ⟨ev, hmem, (overlapsB_iff iso s e ev (hp ev hmem)).2 hw⟩

/-- Timestamp semantics used by the concrete witnesses: a small table
of parseable time strings and the instants they denote. -/
def isoNum : String → Option Int := fun s =>
  if s = "10" then some 10
  else if s = "15" then some 15
  else if s = "20" then some 20
  else if s = "25" then some 25
  else if s = "30" then some 30
  else none

/-- A concrete event with window `[10, 20)`. -/
def evA : Event :=
  { id := "a", start := { dateTime := some "10", date := none },
    end_ := { dateTime := some "20", date := none } }

/-- C1 witness: candidate `[15, 25)` against one event `[10, 20)` —
the iff certifies the strict overlap. -/
theorem check_conflict_iff_strict_overlap_witness :
    ∃ r, check_conflict isoNum "15" "25" { items := [evA] } = .ok r ∧
      (r.1 = true ↔ ∃ ev ∈ [evA], ∃ ts te,
        isoparse isoNum (effField ev.start) = .ok ts ∧
        isoparse isoNum (effField ev.end_) = .ok te ∧ 15 < te ∧ ts < 25) :=
  check_conflict_iff_strict_overlap isoNum "15" "25" { items := [evA] } 15 25
    (by decide) (by decide) (by decide)

/-- A concrete event with window `[15, 25)`. -/
def evB : Event :=
  { id := "b", start := { dateTime := some "15", date := none },
    end_ := { dateTime := some "25", date := none } }

/-- C8: when several events overlap the candidate window, the reported
conflicting event is `List.find?` of the overlap test over the items in
sequence order — the earliest overlapping element: whenever an event is
reported there is a decomposition `items = pre ++ ev :: post` with no
overlap in `pre`. -/
theorem check_conflict_first_occurrence (iso : String → Option Int)
    (start_iso end_iso : String) (events : EventsResponse) (s e : Int)
    (hs : iso start_iso = some s) (he : iso end_iso = some e)
    (hp : ∀ ev ∈ events.items, eventParsesB iso ev = true) :
    check_conflict iso start_iso end_iso events =
      .ok ((events.items.find? (overlapsB iso s e)).isSome,
           events.items.find? (overlapsB iso s e))
    ∧ ∀ ev, events.items.find? (overlapsB iso s e) = some ev →
        overlapsB iso s e ev = true ∧
        ∃ pre post, events.items = pre ++ ev :: post ∧
          ∀ x ∈ pre, overlapsB iso s e x = false := by
  refine ⟨check_conflict_eq_find iso start_iso end_iso events s e hs he hp, ?_⟩
  intro ev hf
  rw [List.find?_eq_some] at hf
  obtain ⟨hov, pre, post, heq, hpre⟩ := hf
  exact ⟨hov, pre, post, heq, fun x hx => by simpa using hpre x hx⟩

/-- C8 witness: candidate `[15, 25)` against `[evA, evB]`, where both
`evA = [10, 20)` and `evB = [15, 25)` overlap — the first one, `evA`,
is reported. -/
theorem check_conflict_first_occurrence_witness :
    check_conflict isoNum "15" "25" { items := [evA, evB] } = .ok (true, some evA) := by
  have h := check_conflict_first_occurrence isoNum "15" "25" { items := [evA, evB] }
    15 25 (by decide) (by decide) (by decide)
  rw [h.1]
  rfl

/-- An event carrying neither a `dateTime` nor a `date` in either
field. -/
def evNoFields : Event :=
  { id := "bad", start := { dateTime := none, date := none },
    end_ := { dateTime := none, date := none } }

/-- C5 counterexample: probing an event that has neither `start.dateTime`
nor `start.date` makes `check_conflict` fail with the generic
`TypeError` that `isoparse(None)` raises — not with a dedicated
`MalformedEventError` (no such error class exists anywhere in the
repository, and nothing raises it). -/
theorem check_conflict_typeError_counterexample :
    check_conflict isoNum "15" "25" { items := [evNoFields] } = .error .typeError
    ∧ PyErr.typeError ≠ PyErr.malformedEventError :=
  ⟨rfl, by decide⟩

/-- C5 amended: the checker tolerates a missing timed field by falling
back to the date-only field (the parse argument becomes the `date`
string); but when neither field of an event is present it fails with
the generic `TypeError` raised by `isoparse(None)`, since the code
defines no dedicated error for unparseable event shapes. -/
theorem check_conflict_fallback_amended (iso : String → Option Int)
    (start_iso end_iso : String) (s e : Int) (f : EvTime) (d : String)
    (ev : Event) (rest : List Event)
    (hs : iso start_iso = some s) (he : iso end_iso = some e) :
    (f.dateTime = none → f.date = some d → effField f = some d)
    ∧ (ev.start.dateTime = none → ev.start.date = none →
        check_conflict iso start_iso end_iso { items := ev :: rest } =
          .error .typeError) := by
  constructor
  · intro h1 h2
    unfold effField
    rw [h1, h2]
  · intro h1 h2
    have h3 : isoparse iso (some start_iso) = .ok s := by simp [isoparse, hs]
    have h4 : isoparse iso (some end_iso) = .ok e := by simp [isoparse, he]
    have h5 : effField ev.start = none := by unfold effField; rw [h1, h2]
    unfold check_conflict
    rw [h3, h4]
    simp [bind, Except.bind, checkLoop, h5, isoparse]

/-- C5 amended witness: a field with only `date := "10"` falls back to
`"10"`, and the no-field event makes the probe raise `TypeError`. -/
theorem check_conflict_fallback_amended_witness :
    (effField { dateTime := none, date := some "10" } = some "10")
    ∧ check_conflict isoNum "15" "25" { items := [evNoFields] } = .error .typeError := by
  have h := check_conflict_fallback_amended isoNum "15" "25" 15 25
    { dateTime := none, date := some "10" } "10" evNoFields []
    (by decide) (by decide)
  exact ⟨h.1 rfl rfl, h.2 rfl rfl⟩

/-- C10: `update_event` runs the conflict probe only when both a new
start and a new end are supplied (truthy) — otherwise the remote trace
is just the GET of the current event and the PUT, with no probe — and
when the probe's first-found overlapping event has the id of the event
being updated, the write proceeds (the probe looks no further, so a
later overlapping event in the fetched sequence does not block it). -/
theorem update_event_probe_policy (env : UpdateEnv) (eid : String)
    (si ei tz su de : Option String) :
    ((truthyStr si && truthyStr ei) = false →
      update_event env eid si ei tz su de =
        .ok (.updatedRes (updatePayload env si ei tz su de) env.put_response,
             [.getEvent eid, .putEvent eid (.pyDict (updatePayload env si ei tz su de))]))
    ∧ (∀ ev, (truthyStr si && truthyStr ei) = true →
        check_conflict env.iso (si.getD "") (ei.getD "") env.probe = .ok (true, some ev) →
        ev.id = eid →
        update_event env eid si ei tz su de =
          .ok (.updatedRes (updatePayload env si ei tz su de) env.put_response,
               [.getEvent eid, .listEvents si ei,
                .putEvent eid (.pyDict (updatePayload env si ei tz su de))])) := by
  constructor
  · intro hfalse
    unfold update_event
    simp [hfalse, updateWrite]
  · intro ev htrue hcc hid
    unfold update_event
    simp [htrue, hcc, hid, updateWrite, bind, Except.bind]

/-- The event being updated, already occupying the new window. -/
def evSelf : Event :=
  { id := "E1", start := { dateTime := some "15", date := none },
    end_ := { dateTime := some "25", date := none } }

/-- A different event that also overlaps the new window. -/
def evOther : Event :=
  { id := "E2", start := { dateTime := some "15", date := none },
    end_ := { dateTime := some "20", date := none } }

/-- The remote world of the C10 witness: the probe window holds the
event being updated first and another overlapping event after it. -/
def updEnv : UpdateEnv :=
  { iso := isoNum
  , current_event := [("id", .pyStr "E1")]
  , probe := { items := [evSelf, evOther] }
  , put_response := .pyNone }

/-- C10 witness: updating only the end bound issues no probe; moving
`E1` to `[15, 25)` proceeds to the PUT although `E2` also overlaps that
window, because the first-found overlap is `E1` itself. -/
theorem update_event_probe_policy_witness :
    (update_event updEnv "E1" none (some "25") none (some "New title") none =
      .ok (.updatedRes (updatePayload updEnv none (some "25") none (some "New title") none)
             updEnv.put_response,
           [.getEvent "E1",
            .putEvent "E1" (.pyDict (updatePayload updEnv none (some "25") none (some "New title") none))]))
    ∧ (update_event updEnv "E1" (some "15") (some "25") (some "Asia/Kolkata") none none =
      .ok (.updatedRes (updatePayload updEnv (some "15") (some "25") (some "Asia/Kolkata") none none)
             updEnv.put_response,
           [.getEvent "E1", .listEvents (some "15") (some "25"),
            .putEvent "E1" (.pyDict (updatePayload updEnv (some "15") (some "25") (some "Asia/Kolkata") none none))])) := by
  constructor
  · exact (update_event_probe_policy updEnv "E1" none (some "25") none (some "New title") none).1
      (by decide)
  · exact (update_event_probe_policy updEnv "E1" (some "15") (some "25") (some "Asia/Kolkata") none none).2
      evSelf (by decide) rfl rfl

/-! ## Claim theorems: defensive JSON parsing and pipeline nodes -/

/-- C3: `_safe_json_loads` is total — whatever `json.loads` does, it
returns a value and never raises; it first attempts the direct parse
(returning its value on success), then the first-`{`-to-last-`}`
substring parse, and on failure of both returns the empty mapping. -/
theorem safe_json_loads_total (json_loads : String → Except PyErr PyVal) (s : String) :
    ((_safe_json_loads json_loads s).isOk = true)
    ∧ (∀ v, json_loads s = .ok v → _safe_json_loads json_loads s = .ok v)
    ∧ ((json_loads s).isOk = false →
        (∀ sub, sliceAttempt s = some sub → (json_loads sub).isOk = false) →
        _safe_json_loads json_loads s = .ok (.pyDict [])) := by
  refine ⟨?_, ?_, ?_⟩
  · unfold _safe_json_loads
    cases h1 : json_loads s with
    | ok v => simp [Except.isOk, Except.toBool]
    | error err =>
      cases h2 : sliceAttempt s with
      | none => simp [Except.isOk, Except.toBool]
      | some sub =>
        cases h3 : json_loads sub <;> simp [h3, Except.isOk, Except.toBool]
  · intro v hv
    unfold _safe_json_loads
    rw [hv]
  · intro hfail hsub
    unfold _safe_json_loads
    cases h1 : json_loads s with
    | ok v => rw [h1] at hfail; simp [Except.isOk, Except.toBool] at hfail
    | error err =>
      cases h2 : sliceAttempt s with
      | none => rfl
      | some sub =>
        have := hsub sub h2
        cases h3 : json_loads sub with
        | ok v => rw [h3] at this; simp [Except.isOk, Except.toBool] at this
        | error err2 => simp [h3]

/-- A concrete stand-in for `json.loads` used by the witnesses: parses
a few fixed literals and fails on everything else. -/
def toyLoads : String → Except PyErr PyVal := fun s =>
  if s = "5" then .ok (.pyInt 5)
  else if s = "true" then .ok (.pyBool true)
  else .error .valueError

/-- C3 witness: on input `"abc"` the direct parse fails, there is no
brace substring, and the result is the empty mapping — with no
exception. -/
theorem safe_json_loads_total_witness :
    ((_safe_json_loads toyLoads "abc").isOk = true)
    ∧ _safe_json_loads toyLoads "abc" = .ok (.pyDict []) := by
  have h := safe_json_loads_total toyLoads "abc"
  have hnone : sliceAttempt "abc" = none := by decide
  exact ⟨h.1, h.2.2 (by decide) (fun sub hsub => by rw [hnone] at hsub; cases hsub)⟩

/-- C9: when the direct parse succeeds with a non-mapping top-level
value, `_safe_json_loads` returns that value unchanged (despite its
`-> dict` annotation), and `intent_node` — which calls
`parsed.get("intent")` on the result — raises `AttributeError` for such
classifier output. -/
theorem safe_json_loads_nonmapping (json_loads : String → Except PyErr PyVal)
    (s : String) (v : PyVal) (state : CalendarState)
    (hps : json_loads s = .ok v) (hnd : ∀ kvs, v ≠ .pyDict kvs) :
    _safe_json_loads json_loads s = .ok v
    ∧ intent_node json_loads s state = .error .attributeError := by
  have h1 : _safe_json_loads json_loads s = .ok v := by
    unfold _safe_json_loads
    rw [hps]
  refine ⟨h1, ?_⟩
  unfold intent_node
  rw [h1]
  cases v with
  | pyDict kvs => exact absurd rfl (hnd kvs)
  | pyNone => rfl
  | pyBool b => rfl
  | pyInt n => rfl
  | pyStr str => rfl
  | pyList xs => rfl
  | pyObj a b c d r => rfl

/-- The state every node starts from in the witnesses: one user turn,
all stage fields unset. -/
def freshState : CalendarState :=
  { messages := [.pyStr "book a meeting"], intent := .pyNone, data := .pyNone,
    validation := .pyNone, action_result := .pyNone, message := .pyNone }

/-- C9 witness: classifier output `"5"` parses to the integer `5`,
which `_safe_json_loads` returns unchanged, and `intent_node` then
raises `AttributeError`. -/
theorem safe_json_loads_nonmapping_witness :
    _safe_json_loads toyLoads "5" = .ok (.pyInt 5)
    ∧ intent_node toyLoads "5" freshState = .error .attributeError :=
  safe_json_loads_nonmapping toyLoads "5" (.pyInt 5) freshState rfl
    (fun kvs h => by cases h)

/-- C2: when `conflictCheck.valid` is falsy, `action_node` opens no
Tool Invocation Client session and issues no tool call at all: it
writes `action_result = {"status": "error", "details":
validation.get("errors")}` and returns, whatever the intent and the
remote behaviour. -/
theorem action_node_short_circuit (callTool : PyVal → PyVal → PyVal)
    (state : CalendarState) (kvs : List (String × PyVal))
    (hv : (if truthy state.validation then state.validation else .pyDict []) = .pyDict kvs)
    (hfalse : truthy (dictGetD kvs "valid" (.pyBool false)) = false) :
    action_node callTool state =
      .ok ({ state with action_result :=
              (.pyDict [("status", .pyStr "error"),
                        ("details", dictGetD kvs "errors" PyVal.pyNone)]) },
           false, []) := by
  unfold action_node
  rw [hv]
  simp [pyGetMethodD, pyGetMethod, hfalse, bind, Except.bind]

/-- A validation dict recording a failed check with one error. -/
def failedValidation : PyVal :=
  .pyDict [("valid", .pyBool false), ("errors", .pyList [.pyStr "conflict detected"])]

/-- C2 witness: with `validation = {"valid": false, "errors": [...]}`,
`action_node` returns the error result, opens no session and makes no
tool call — for an arbitrary concrete remote behaviour. -/
theorem action_node_short_circuit_witness :
    action_node (fun _ _ => .pyStr "MUST NOT BE CALLED")
        { freshState with validation := failedValidation } =
      .ok ({ freshState with
             validation := failedValidation
             action_result :=
              (.pyDict [("status", .pyStr "error"),
                        ("details", .pyList [.pyStr "conflict detected"])]) },
           false, []) := by
  have h := action_node_short_circuit (fun _ _ => .pyStr "MUST NOT BE CALLED")
    { freshState with validation := failedValidation }
    [("valid", .pyBool false), ("errors", .pyList [.pyStr "conflict detected"])]
    rfl rfl
  simpa [dictGetD, failedValidation] using h

/-! ## Claim theorems: result normalization (C6) -/

/-- Normalizing a list normalizes its elements. -/
theorem serialize_pyList (xs : List PyVal) :
    serialize_tool_result (.pyList xs) = .pyList (xs.map serialize_tool_result) := by
  rw [serialize_tool_result]
  rw [List.attach_map_val xs serialize_tool_result]

/-- Normalizing an object through its `__dict__` normalizes the
attribute values. -/
theorem serialize_dunder (attrs : List (String × PyVal)) (text : Option String)
    (pb : Option JsonVal) (reprStr : String) :
    serialize_tool_result (.pyObj none (some attrs) text pb reprStr) =
      .pyDict (attrs.map fun kv => (kv.1, serialize_tool_result kv.2)) := by
  rw [serialize_tool_result]
  rw [List.attach_map_val attrs (fun kv => (kv.1, serialize_tool_result kv.2))]

/-- Normalizing a plain mapping returns it unchanged. -/
theorem serialize_pyDict (kvs : List (String × PyVal)) :
    serialize_tool_result (.pyDict kvs) = .pyDict kvs := by
  rw [serialize_tool_result]

/-- Normalizing `None` returns `None`. -/
theorem serialize_pyNone : serialize_tool_result .pyNone = .pyNone := by
  rw [serialize_tool_result]

/-- Plain JSON values are fixed points of normalization. -/
theorem serialize_toPyVal_fix (j : JsonVal) :
    serialize_tool_result j.toPyVal = j.toPyVal := by
  induction j using JsonVal.toPyVal.induct with
  | case1 => simp [JsonVal.toPyVal, serialize_tool_result]
  | case2 b => simp [JsonVal.toPyVal, serialize_tool_result]
  | case3 n => simp [JsonVal.toPyVal, serialize_tool_result]
  | case4 s => simp [JsonVal.toPyVal, serialize_tool_result]
  | case5 xs ih =>
    rw [JsonVal.toPyVal]
    rw [List.attach_map_val xs JsonVal.toPyVal]
    rw [serialize_pyList, List.map_map]
    congr 1
    refine List.map_congr_left ?_
    intro a ha
    exact ih ⟨a, ha⟩
  | case6 kvs =>
    rw [JsonVal.toPyVal]
    exact serialize_pyDict _

/-- Every output of `serialize_tool_result` is a fixed point of it:
the normalization is idempotent. -/
theorem serialize_idem (v : PyVal) :
    serialize_tool_result (serialize_tool_result v) = serialize_tool_result v := by
  induction v using serialize_tool_result.induct with
  | case1 => simp [serialize_tool_result]
  | case2 b => simp [serialize_tool_result]
  | case3 n => simp [serialize_tool_result]
  | case4 s => simp [serialize_tool_result]
  | case5 kvs => simp [serialize_tool_result]
  | case6 xs ih =>
    rw [serialize_pyList, serialize_pyList, List.map_map]
    congr 1
    refine List.map_congr_left ?_
    intro a ha
    exact ih ⟨a, ha⟩
  | case7 a b c d e => simp [serialize_tool_result]
  | case8 a b c d e =>
    rw [serialize_dunder]
    exact serialize_pyDict _
  | case9 a b c => simp [serialize_tool_result]
  | case10 a b => simp [serialize_tool_result, serialize_toPyVal_fix]
  | case11 a => simp [serialize_tool_result]

/-- C6: result normalization is total (a total function of the payload
by construction) and idempotent on already-normalized input: a plain
mapping is returned unchanged, `None` maps to `None`, a list maps to
the list of the normalized forms of its elements, and re-normalizing
any of these returns the same value again. -/
theorem serialize_tool_result_idempotent (kvs : List (String × PyVal)) (xs : List PyVal) :
    serialize_tool_result (.pyDict kvs) = .pyDict kvs
    ∧ serialize_tool_result .pyNone = .pyNone
    ∧ serialize_tool_result (.pyList xs) = .pyList (xs.map serialize_tool_result)
    ∧ serialize_tool_result (serialize_tool_result (.pyDict kvs)) =
        serialize_tool_result (.pyDict kvs)
    ∧ serialize_tool_result (serialize_tool_result .pyNone) =
        serialize_tool_result .pyNone
    ∧ serialize_tool_result (serialize_tool_result (.pyList xs)) =
        serialize_tool_result (.pyList xs) :=
  ⟨serialize_pyDict kvs, serialize_pyNone, serialize_pyList xs,
   by rw [serialize_pyDict, serialize_pyDict],
   by rw [serialize_pyNone, serialize_pyNone],
   serialize_idem (.pyList xs)⟩

/-! ## Claim theorems: pipeline graph shape (C7) -/

/-- C7: the compiled pipeline wires exactly the five stage nodes in the
fixed order intent → data → validation → action → feedback as a single
chain from `START` to `END`; `add_conditional_edges` is never used, so
every node has exactly one outgoing edge and there is no graph fork —
the only conditional branch lives inside `action_node` (the skip
shown in the C2 theorem), not in the graph. -/
theorem build_graph_is_linear_chain :
    build_graph.nodes = ["intent", "data", "validation", "action", "feedback"]
    ∧ build_graph.conditional_edges = []
    ∧ build_graph.edges = [(START, "intent"), ("intent", "data"), ("data", "validation"),
        ("validation", "action"), ("action", "feedback"), ("feedback", END)]
    ∧ pathFrom build_graph 6 START =
        [START, "intent", "data", "validation", "action", "feedback", END]
    ∧ (∀ n ∈ build_graph.nodes, (successors build_graph n).length = 1) := by
  refine ⟨rfl, rfl, rfl, rfl, ?_⟩
  decide

/-! ## Claim theorems: outward boundary (C4) -/

/-- A client environment whose `list_tools` fails with a transport
error (the MCP server subprocess is gone); all later effects are
benign. -/
def brokenTransportEnv : ClientEnv :=
  { connect := .ok ()
  , list_tools := .error (.exc "TransportError")
  , send_message := fun _ => .ok (.textOnly "unused")
  , call_tool := fun _ _ => .ok .pyNone
  , send_follow_up := fun _ _ => .ok "unused" }

/-- C4 counterexample: with a failing transport, the `/assistant/query`
handler propagates the exception instead of returning the error
envelope `{response: null, error: text}` — there is no handler around
`run_with_gemini`, and no error envelope exists anywhere in the code. -/
theorem assistant_query_raises_counterexample :
    assistant_query brokenTransportEnv "hello" = .error (.exc "TransportError")
    ∧ (assistant_query brokenTransportEnv "hello").isOk = false :=
  ⟨rfl, rfl⟩

/-- C4 amended: `assistant_query` returns `{"response": text}` when
`run_with_gemini` succeeds, and propagates the exception unchanged past
its boundary when any internal effect fails; it never converts a
failure into an error envelope. -/
theorem assistant_query_amended (env : ClientEnv) (q : String) :
    (∀ t, run_with_gemini env q = .ok t →
      assistant_query env q = .ok (.pyDict [("response", .pyStr t)]))
    ∧ (∀ err, run_with_gemini env q = .error err →
      assistant_query env q = .error err) := by
  constructor
  · intro t h
    unfold assistant_query
    rw [h]
    rfl
  · intro err h
    unfold assistant_query
    rw [h]
    rfl

/-- A client environment where the model answers directly with text. -/
def plainTextEnv : ClientEnv :=
  { connect := .ok ()
  , list_tools := .ok ["list_events", "create_event", "update_event", "delete_event"]
  , send_message := fun _ => .ok (.textOnly "You are free at 3pm.")
  , call_tool := fun _ _ => .ok .pyNone
  , send_follow_up := fun _ _ => .ok "unused" }

/-- C4 amended witness: a successful run wraps the model text in the
response dict; a failing run propagates that same exception. -/
theorem assistant_query_amended_witness :
    assistant_query plainTextEnv "am I free at 3pm?" =
      .ok (.pyDict [("response", .pyStr "You are free at 3pm.")])
    ∧ assistant_query brokenTransportEnv "am I free at 3pm?" =
      .error (.exc "TransportError") :=
  ⟨(assistant_query_amended plainTextEnv "am I free at 3pm?").1
      "You are free at 3pm." rfl,
   (assistant_query_amended brokenTransportEnv "am I free at 3pm?").2
      (.exc "TransportError") rfl⟩

end CalendarAssistant
